import Mathlib

/-
  Verification development for the PRISMA Pulse Engine (background agent):
  scheduled-job lifecycle, recurrence, crash recovery, notification
  deduplication, loop orchestration, schedule tools and webhook
  registration, shallowly embedded from the JavaScript sources
  (services/pulse.js, tools/scheduleTools.js, core/database.js).

  Machine integers and Date values are modelled as mathematical Int
  (milliseconds since the Unix epoch, UTC); SQLite rows are modelled as
  Lean structures; the database tables are lists of rows.  Where the
  sources only contain callers of a database helper (the scheduled-job /
  pulse-notification layer of core/database.js), the helper is modelled
  from the specification and its doc comment says so.
-/

namespace Prisma

/-- Status column of a scheduled job row (spec section 3: pending, running, done, failed). -/
inductive JobStatus where
  | pending
  | running
  | done
  | failed
deriving DecidableEq

/-- Opaque payload of a scheduled job.  The reminder handler reads title and
body, the send-email handler reads to, subject and body (services/pulse.js). -/
structure JobPayload where
  title : Option String
  body : Option String
  toAddr : Option String
  subject : Option String
deriving DecidableEq

/-- One row of the scheduled_jobs table.  runAt is the run_at column in UTC
epoch milliseconds; recurring is NULL or a recurrence tag string. -/
structure Job where
  id : String
  userId : String
  type : String
  payload : JobPayload
  runAt : Int
  recurring : Option String
  status : JobStatus
deriving DecidableEq

/-- Composite key of a pulse-notification dedup record
(userId, source, sourceId), spec section 3 DedupRecord. -/
structure DedupKey where
  userId : String
  source : String
  sourceId : String
deriving DecidableEq

/-- A notification object as built by PulseEngine._notify (services/pulse.js
lines 114-124); the random uuid and the timestamp are omitted from the model. -/
structure Notification where
  userId : String
  source : String
  sourceId : String
  priority : String
  title : String
  body : String
deriving DecidableEq

/-- Arguments of one PulseEngine._notify call; priority is optional and
defaults to info inside _notify. -/
structure NotifyReq where
  userId : String
  source : String
  sourceId : String
  priority : Option String
  title : String
  body : String
deriving DecidableEq

/-- Dedup key of a _notify call. -/
def NotifyReq.key (r : NotifyReq) : DedupKey :=
  ⟨r.userId, r.source, r.sourceId⟩

/-- The notification object _notify builds from its arguments
(priority falls back to info on line 119 of services/pulse.js). -/
def NotifyReq.toNotification (r : NotifyReq) : Notification :=
  ⟨r.userId, r.source, r.sourceId, r.priority.getD "info", r.title, r.body⟩

/-- State touched by _notify and getNotifications: the durable
pulse-notification ledger (a database table) and the in-memory
notificationQueue array. -/
structure PulseState where
  ledger : List DedupKey
  notificationQueue : List Notification
deriving DecidableEq

/-- Modelled from the spec: db.hasPulseNotification(userId, source, sourceId).
The pulse-notification layer of core/database.js is not among the sources
(only its callers are); spec section 3 defines the DedupRecord composite key
(subjectId, source, sourceEventId) and section 4.4 the existence check. -/
def hasPulseNotification (ledger : List DedupKey) (userId source sourceId : String) : Bool :=
  ledger.contains ⟨userId, source, sourceId⟩

/-- Modelled from the spec: db.logPulseNotification inserts one DedupRecord;
records are created once per unique key and never updated (spec section 3). -/
def logPulseNotification (ledger : List DedupKey) (k : DedupKey) : List DedupKey :=
  ledger ++ [k]

/-- PulseEngine._notify (services/pulse.js lines 100-129): return early when a
dedup record already exists, otherwise log the record first and then push the
notification onto the queue. -/
def notify (s : PulseState) (r : NotifyReq) : PulseState :=
  if hasPulseNotification s.ledger r.userId r.source r.sourceId then s
  else
    { ledger := logPulseNotification s.ledger r.key,
      notificationQueue := s.notificationQueue ++ [r.toNotification] }

/-- PulseEngine.getNotifications (services/pulse.js lines 91-95): copy the
queue, clear it, return the batch. -/
def getNotifications (s : PulseState) : List Notification × PulseState :=
  (s.notificationQueue, { s with notificationQueue := [] })

/-- A sequence of _notify calls, in order. -/
def applyNotifies (s : PulseState) (reqs : List NotifyReq) : PulseState :=
  reqs.foldl notify s

/-- The notifications a sequence of _notify calls actually emits, in call
order, starting from a given ledger (the dedup-suppressed calls emit
nothing). -/
def emittedBatch (ledger : List DedupKey) : List NotifyReq → List Notification
  | [] => []
  | r :: rest =>
    if hasPulseNotification ledger r.userId r.source r.sourceId then
      emittedBatch ledger rest
    else
      r.toNotification :: emittedBatch (logPulseNotification ledger r.key) rest

theorem notify_ledger_eq (s : PulseState) (r : NotifyReq) :
    (notify s r).ledger =
      (if hasPulseNotification s.ledger r.userId r.source r.sourceId then s.ledger
       else logPulseNotification s.ledger r.key) := by
  unfold notify
  by_cases h : hasPulseNotification s.ledger r.userId r.source r.sourceId <;> simp [h]

theorem applyNotifies_queue (reqs : List NotifyReq) :
    ∀ s : PulseState,
      (applyNotifies s reqs).notificationQueue
        = s.notificationQueue ++ emittedBatch s.ledger reqs := by
  induction reqs with
  | nil => intro s; simp [applyNotifies, emittedBatch]
  | cons r rest ih =>
    intro s
    have hstep : applyNotifies s (r :: rest) = applyNotifies (notify s r) rest := by
      simp [applyNotifies, List.foldl_cons]
    rw [hstep]
    by_cases h : hasPulseNotification s.ledger r.userId r.source r.sourceId
    · have hn : notify s r = s := by simp [notify, h]
      rw [hn, ih s]
      simp [emittedBatch, h]
    · have hn : notify s r =
          { ledger := logPulseNotification s.ledger r.key,
            notificationQueue := s.notificationQueue ++ [r.toNotification] } := by
        simp [notify, h]
      rw [hn, ih]
      simp [emittedBatch, h]

/-- C2: the _notify gate emits on the first call with a fresh key and on no
later call with the identical key, and a dedup record exists in the ledger for
every emitted notification (the record gates emission). -/
theorem notify_dedup_once (s : PulseState) (r : NotifyReq)
    (hfresh : hasPulseNotification s.ledger r.userId r.source r.sourceId = false)
    (hinv : ∀ n ∈ s.notificationQueue,
      (⟨n.userId, n.source, n.sourceId⟩ : DedupKey) ∈ s.ledger) :
    (notify s r).notificationQueue = s.notificationQueue ++ [r.toNotification]
    ∧ r.key ∈ (notify s r).ledger
    ∧ (∀ n ∈ (notify s r).notificationQueue,
        (⟨n.userId, n.source, n.sourceId⟩ : DedupKey) ∈ (notify s r).ledger)
    ∧ (∀ t : PulseState, r.key ∈ t.ledger →
        ∀ r2 : NotifyReq, r2.key = r.key → notify t r2 = t)
    ∧ (∀ t : PulseState, ∀ q : NotifyReq, ∀ k : DedupKey,
        k ∈ t.ledger → k ∈ (notify t q).ledger) := by
  have hb : hasPulseNotification s.ledger r.userId r.source r.sourceId = false := hfresh
  refine ⟨?_, ?_, ?_, ?_, ?_⟩
  · simp [notify, hb]
  · simp [notify, hb, logPulseNotification]
  · intro n hn
    simp only [notify, hb, if_false, Bool.false_eq_true] at hn ⊢
    simp only [logPulseNotification]
    rcases List.mem_append.mp hn with h1 | h2
    · exact List.mem_append_left _ (hinv n h1)
    · have hn2 : n = r.toNotification := by simpa using h2
      subst hn2
      refine List.mem_append_right _ ?_
      simp [NotifyReq.toNotification, NotifyReq.key]
  · intro t ht r2 hk
    have hkey : (⟨r2.userId, r2.source, r2.sourceId⟩ : DedupKey) ∈ t.ledger := by
      have : r2.key ∈ t.ledger := hk ▸ ht
      simpa [NotifyReq.key] using this
    have hc : hasPulseNotification t.ledger r2.userId r2.source r2.sourceId = true := by
      simp only [hasPulseNotification]
      simpa using hkey
    simp [notify, hc]
  · intro t q k hk
    by_cases hq : hasPulseNotification t.ledger q.userId q.source q.sourceId
    · simp [notify, hq, hk]
    · simp [notify, hq, logPulseNotification]
      exact Or.inl hk

/-- C10: getNotifications drains the outbound queue — it returns the whole
queue, leaves it empty (so an immediate second call returns the empty list),
does not touch the dedup ledger, and after any further sequence of _notify
calls the next poll returns exactly the notifications those calls emitted, in
call order. -/
theorem getNotifications_drains (s : PulseState) (reqs : List NotifyReq) :
    (getNotifications s).1 = s.notificationQueue
    ∧ (getNotifications s).2.notificationQueue = []
    ∧ (getNotifications s).2.ledger = s.ledger
    ∧ (getNotifications ((getNotifications s).2)).1 = []
    ∧ (getNotifications (applyNotifies ((getNotifications s).2) reqs)).1
        = emittedBatch s.ledger reqs := by
  refine ⟨rfl, rfl, rfl, rfl, ?_⟩
  have h := applyNotifies_queue reqs ((getNotifications s).2)
  simp only [getNotifications] at h ⊢
  simpa using h

/-- The scheduled_jobs table: a list of job rows. -/
structure JobsDB where
  jobs : List Job
deriving DecidableEq

/-- Modelled from the spec: markRunning(id), the transition into running that
_executeJob performs through db.updateJobStatus with the running status.  The
scheduled-job layer of core/database.js is not among the sources (only its
callers are); spec section 4.1 defines it as a conditional update that
succeeds only if the current status is pending and returns a boolean saying
whether the caller won the transition. -/
def markRunning (d : JobsDB) (id : String) : Bool × JobsDB :=
  if d.jobs.any (fun j => j.id == id && j.status == JobStatus.pending) then
    (true,
     ⟨d.jobs.map (fun j =>
        if j.id == id then { j with status := JobStatus.running } else j)⟩)
  else
    (false, d)

/-- JavaScript truthy/falsy choice over optional strings: x || dflt, where
both a missing value and the empty string fall back to the default. -/
def jsOr (x : Option String) (dflt : String) : String :=
  match x with
  | none => dflt
  | some s => if s == "" then dflt else s

/-- PulseEngine._calculateNextRun (services/pulse.js lines 426-442): advance
the previously scheduled run time by one calendar unit.  A Date is UTC epoch
milliseconds, so setHours(+1) adds 3600000 ms, setDate(+1) adds 86400000 ms
and setDate(+7) adds 604800000 ms; an unrecognized recurrence yields none
(the JavaScript returns null). -/
def calculateNextRun (lastRun : Int) (recurring : String) : Option Int :=
  if recurring == "hourly" then some (lastRun + 3600000)
  else if recurring == "daily" then some (lastRun + 86400000)
  else if recurring == "weekly" then some (lastRun + 604800000)
  else none

/-- The success notification pushed by _executeSendEmail
(services/pulse.js lines 410-418). -/
def emailOkNotifReq (job : Job) : NotifyReq :=
  { userId := job.userId, source := "job", sourceId := job.id,
    priority := some "info", title := "[OK] Scheduled email sent",
    body := "To: " ++ jsOr job.payload.toAddr "" ++ "\nSubject: " ++ jsOr job.payload.subject "" }

/-- The notification the reminder handler pushes
(services/pulse.js lines 348-356). -/
def reminderNotifReq (job : Job) : NotifyReq :=
  { userId := job.userId, source := "job", sourceId := job.id,
    priority := some "important",
    title := "[Reminder] " ++ jsOr job.payload.title "Scheduled Reminder",
    body := jsOr job.payload.body (jsOr job.payload.title "") }

/-- The failure notification pushed by the catch branch of _executeJob
(services/pulse.js lines 377-385); the body preserves the error message of
the handler. -/
def failNotifReq (job : Job) (errMsg : String) : NotifyReq :=
  { userId := job.userId, source := "job", sourceId := job.id ++ "-error",
    priority := some "important", title := "[FAILED] Scheduled task failed",
    body := job.type ++ ": " ++ errMsg }

/-- PulseEngine._executeJob (services/pulse.js lines 338-387), as the final
job row plus the list of _notify calls it makes.  The row is first moved to
running (db.updateJobStatus with the running status); emailSend models the
external Gmail send of _executeSendEmail (.ok when the call succeeds,
.error msg when it throws).  The dispatch switch: send_email runs the email
handler, reminder pushes a reminder notification and cannot throw, and the
default branch only logs a warning.  On success, a recurring job is
rescheduled through db.rescheduleJob, which is modelled from the spec
(section 4.1 reschedule(id, nextRunAt): transitions running to pending with
the updated runAt; the database layer is not among the sources); otherwise
the row is marked done.  The catch branch marks the row failed and pushes a
failure notification. -/
def executeJob (emailSend : Except String Unit) (job : Job) : Job × List NotifyReq :=
  let handlerStep : Except String (List NotifyReq) :=
    if job.type == "send_email" then
      match emailSend with
      | Except.ok _ => Except.ok [emailOkNotifReq job]
      | Except.error e => Except.error e
    else if job.type == "reminder" then
      Except.ok [reminderNotifReq job]
    else
      Except.ok []
  match handlerStep with
  | Except.ok emitted =>
    match job.recurring with
    | some rec =>
      match calculateNextRun job.runAt rec with
      | some next => ({ job with status := JobStatus.pending, runAt := next }, emitted)
      | none => ({ job with status := JobStatus.done }, emitted)
    | none => ({ job with status := JobStatus.done }, emitted)
  | Except.error e =>
    ({ job with status := JobStatus.failed }, [failNotifReq job e])

/-- C1: markRunning is a conditional update — it returns false and leaves the
table unchanged whenever no pending row carries the id, and of two callers
attempting the transition on the same pending job id exactly the first
succeeds (the second gets false and the table is left as the first caller
left it), so the job enters running only once within the cycle. -/
theorem markRunning_exclusive (d : JobsDB) (j : Job) (hmem : j ∈ d.jobs)
    (hid : ∀ j2 ∈ d.jobs, j2.id = j.id → j2 = j)
    (hp : j.status = JobStatus.pending) :
    (markRunning d j.id).1 = true
    ∧ (markRunning (markRunning d j.id).2 j.id).1 = false
    ∧ (markRunning (markRunning d j.id).2 j.id).2 = (markRunning d j.id).2
    ∧ (∀ d0 : JobsDB, ∀ id : String,
        (∀ j2 ∈ d0.jobs, j2.id = id → j2.status ≠ JobStatus.pending) →
        markRunning d0 id = (false, d0)) := by
  have hany : d.jobs.any (fun j2 => j2.id == j.id && j2.status == JobStatus.pending) = true := by
    refine List.any_eq_true.mpr ⟨j, hmem, ?_⟩
    simp [hp]
  have hnone : ∀ d0 : JobsDB, ∀ id : String,
      (∀ j2 ∈ d0.jobs, j2.id = id → j2.status ≠ JobStatus.pending) →
      markRunning d0 id = (false, d0) := by
    intro d0 id h
    have hany0 : d0.jobs.any (fun j2 => j2.id == id && j2.status == JobStatus.pending) = false := by
      rw [List.any_eq_false]
      intro j2 hj2
      intro hcontra
      have h1 : j2.id = id := by
        have := hcontra
        simp only [Bool.and_eq_true, beq_iff_eq] at this
        exact this.1
      have h2 : j2.status = JobStatus.pending := by
        have := hcontra
        simp only [Bool.and_eq_true, beq_iff_eq] at this
        exact this.2
      exact h j2 hj2 h1 h2
    simp [markRunning, hany0]
  have hsecond : ∀ j2 ∈ (markRunning d j.id).2.jobs, j2.id = j.id → j2.status ≠ JobStatus.pending := by
    intro j2 hj2 hjid
    simp only [markRunning, hany, if_true] at hj2
    rcases List.mem_map.mp hj2 with ⟨j0, hj0, hj0eq⟩
    by_cases hcase : j0.id = j.id
    · have hj0j : j0 = j := hid j0 hj0 hcase
      subst hj0j
      have : (if j0.id == j0.id then { j0 with status := JobStatus.running } else j0) = j2 := hj0eq
      simp at this
      rw [← this]
      simp
    · have hbeq : (j0.id == j.id) = false := by simp [hcase]
      rw [hbeq] at hj0eq
      simp at hj0eq
      rw [← hj0eq] at hjid
      exact absurd hjid hcase
  refine ⟨?_, ?_, ?_, hnone⟩
  · simp [markRunning, hany]
  · have := hnone (markRunning d j.id).2 j.id hsecond
    simp [this]
  · have := hnone (markRunning d j.id).2 j.id hsecond
    simp [this]

/-- A concrete recurring send-email job used as test input. -/
def demoRecurringJob : Job :=
  { id := "job-1", userId := "u1", type := "send_email",
    payload := { title := none, body := some "hi", toAddr := some "a@b.c", subject := some "ping" },
    runAt := 1700000000000, recurring := some "hourly", status := JobStatus.pending }

/-- A concrete job whose type has no handler in the dispatch switch. -/
def demoUnknownJob : Job :=
  { id := "job-2", userId := "u1", type := "ping",
    payload := { title := none, body := none, toAddr := none, subject := none },
    runAt := 1700000000000, recurring := none, status := JobStatus.pending }

/-- C3: after a successful execution of a recurring job the row re-enters
pending (it keeps its id — the row is rescheduled in place, not deleted, and
is not marked done) with runAt advanced from the previously scheduled runAt:
exactly one hour for hourly and exactly 24 hours for daily.  executeJob takes
no clock argument at all, so the advanced runAt cannot depend on how late the
tick fired. -/
theorem recurring_advances_from_scheduled (job : Job) :
    (job.recurring = some "hourly" →
      (executeJob (Except.ok ()) job).1.status = JobStatus.pending
      ∧ (executeJob (Except.ok ()) job).1.runAt = job.runAt + 3600000
      ∧ (executeJob (Except.ok ()) job).1.id = job.id)
    ∧ (job.recurring = some "daily" →
      (executeJob (Except.ok ()) job).1.status = JobStatus.pending
      ∧ (executeJob (Except.ok ()) job).1.runAt - job.runAt = 86400000
      ∧ (executeJob (Except.ok ()) job).1.id = job.id) := by
  constructor
  · intro h
    by_cases hmail : job.type == "send_email" <;>
      by_cases hrem : job.type == "reminder" <;>
        simp [executeJob, hmail, hrem, h, calculateNextRun]
  · intro h
    by_cases hmail : job.type == "send_email" <;>
      by_cases hrem : job.type == "reminder" <;>
        · simp [executeJob, hmail, hrem, h, calculateNextRun]

/-- C4 counterexample: a concrete recurring (hourly) send-email job whose
handler throws is left failed with its runAt unchanged — it is not re-armed
for the next recurrence and does not re-enter pending, so the claim that a
failure keeps the recurring schedule alive is false on this code. -/
theorem recurring_failure_cex :
    (executeJob (Except.error "SMTP down") demoRecurringJob).1.status = JobStatus.failed
    ∧ ¬ (executeJob (Except.error "SMTP down") demoRecurringJob).1.status = JobStatus.pending
    ∧ (executeJob (Except.error "SMTP down") demoRecurringJob).1.runAt = demoRecurringJob.runAt
    ∧ demoRecurringJob.recurring = some "hourly" := by
  refine ⟨rfl, by decide, rfl, rfl⟩

/-- C4 (amended): when the handler of a recurring job throws, _executeJob
skips the recurrence branch entirely — the job is marked failed with runAt
unchanged and only the failure notification is raised, so the recurring
schedule is cancelled by a failure rather than re-armed. -/
theorem recurring_failure_terminates (job : Job) (e rec : String)
    (hrec : job.recurring = some rec)
    (htype : job.type = "send_email") :
    (executeJob (Except.error e) job).1.status = JobStatus.failed
    ∧ (executeJob (Except.error e) job).1.runAt = job.runAt
    ∧ (executeJob (Except.error e) job).1.recurring = job.recurring
    ∧ (executeJob (Except.error e) job).2 = [failNotifReq job e] := by
  have hb : (job.type == "send_email") = true := by simp [htype]
  refine ⟨?_, ?_, ?_, ?_⟩ <;> simp [executeJob, hb]

/-- C6 counterexample: a concrete job whose type (ping) has no handler in the
dispatch switch ends the cycle marked done with no notification at all — not
failed and with no HandlerNotFoundError — so the unknown-type half of the
claim is false on this code. -/
theorem unknown_type_cex :
    (executeJob (Except.ok ()) demoUnknownJob).1.status = JobStatus.done
    ∧ ¬ (executeJob (Except.ok ()) demoUnknownJob).1.status = JobStatus.failed
    ∧ (executeJob (Except.ok ()) demoUnknownJob).2 = [] := by
  refine ⟨rfl, by decide, rfl⟩

/-- C6 (amended): an unknown job type is not an error — the default branch of
the dispatch switch only logs a warning, and the job then completes the cycle
as a success (a non-recurring job is marked done, with no notification);
a handler-thrown error does mark the job failed, with the error message of
the handler preserved in the body of the failure notification. -/
theorem dispatch_failure_policy (job : Job) (e : String)
    (hmail : job.type ≠ "send_email") (hrem : job.type ≠ "reminder")
    (hnorec : job.recurring = none) :
    (executeJob (Except.ok ()) job).1.status = JobStatus.done
    ∧ (executeJob (Except.ok ()) job).2 = []
    ∧ (∀ job2 : Job, job2.type = "send_email" →
        (executeJob (Except.error e) job2).1.status = JobStatus.failed
        ∧ (executeJob (Except.error e) job2).2 = [failNotifReq job2 e]
        ∧ (failNotifReq job2 e).body = job2.type ++ ": " ++ e) := by
  have hb1 : (job.type == "send_email") = false := by simp [hmail]
  have hb2 : (job.type == "reminder") = false := by simp [hrem]
  refine ⟨?_, ?_, ?_⟩
  · simp [executeJob, hb1, hb2, hnorec]
  · simp [executeJob, hb1, hb2, hnorec]
  · intro job2 h2
    have hb : (job2.type == "send_email") = true := by simp [h2]
    exact ⟨by simp [executeJob, hb], by simp [executeJob, hb], rfl⟩

/-- PulseEngine._recoverStuckJobs (services/pulse.js lines 454-465): the raw
statement UPDATE scheduled_jobs SET status = pending WHERE status =
running, row by row — only the status column of running rows changes. -/
def recoverStuckJobs (d : JobsDB) : JobsDB :=
  ⟨d.jobs.map (fun j =>
    if j.status == JobStatus.running then { j with status := JobStatus.pending } else j)⟩

/-- One observable step of PulseEngine.start (services/pulse.js lines 41-74):
arming a loop timer, running the stuck-job recovery, firing an eager tick of
a loop, scheduling the 30-second delayed first check of a loop, or installing
the repo:pushed listener. -/
inductive PulseEvent where
  | arm (loop : String)
  | recoverStuck
  | eagerTick (loop : String)
  | delayedFirstTick (loop : String) (delayMs : Nat)
  | listen (eventName : String)
deriving DecidableEq

/-- The effect trace of PulseEngine.start(), in source order: the guard on
this.running, the six setInterval arms (lines 47-52), _recoverStuckJobs
(line 55), the immediate _runJobs and _checkReminders (lines 58-59), the
setTimeout-delayed first email/calendar/repo checks (lines 62-66), and the
repo:pushed listener (line 69). -/
def startEvents (running : Bool) : List PulseEvent :=
  if running then []
  else
    [PulseEvent.arm "jobs", PulseEvent.arm "reminders", PulseEvent.arm "email",
     PulseEvent.arm "calendar", PulseEvent.arm "repos", PulseEvent.arm "cleanup",
     PulseEvent.recoverStuck,
     PulseEvent.eagerTick "jobs", PulseEvent.eagerTick "reminders",
     PulseEvent.delayedFirstTick "email" 30000,
     PulseEvent.delayedFirstTick "calendar" 30000,
     PulseEvent.delayedFirstTick "repos" 30000,
     PulseEvent.listen "repo:pushed"]

/-- The timer state of the engine: the running flag and the keys of the armed
interval timers. -/
structure EngineState where
  running : Bool
  timers : List String
deriving DecidableEq

/-- PulseEngine.stop (services/pulse.js lines 79-86): clear the running flag,
clearInterval every armed timer and reset the timer map; on an already
stopped engine the loop iterates an empty map, so the call is a no-op. -/
def stop (s : EngineState) : EngineState :=
  { running := false, timers := [] }

/-- C5: resetStuck moves every running row to pending while changing no other
column, leaves every non-running row untouched, deletes and adds nothing, and
every effective start() performs it exactly once, strictly before the first
tick of the job loop (start on an engine already running is a guarded no-op
with an empty trace). -/
theorem resetStuck_frame_and_once (d : JobsDB) (j : Job) (hmem : j ∈ d.jobs) :
    (recoverStuckJobs d).jobs.length = d.jobs.length
    ∧ (j.status = JobStatus.running →
        { j with status := JobStatus.pending } ∈ (recoverStuckJobs d).jobs)
    ∧ (j.status ≠ JobStatus.running → j ∈ (recoverStuckJobs d).jobs)
    ∧ (startEvents false).count PulseEvent.recoverStuck = 1
    ∧ (startEvents false).indexOf PulseEvent.recoverStuck
        < (startEvents false).indexOf (PulseEvent.eagerTick "jobs")
    ∧ startEvents true = [] := by
  refine ⟨?_, ?_, ?_, by decide, by decide, by decide⟩
  · simp [recoverStuckJobs]
  · intro h
    refine List.mem_map.mpr ⟨j, hmem, ?_⟩
    simp [h]
  · intro h
    refine List.mem_map.mpr ⟨j, hmem, ?_⟩
    have hb : (j.status == JobStatus.running) = false := by
      simpa using h
    simp [hb]

/-- C8 counterexample: start() arms the cleanup loop but its trace contains
no eager cleanup tick (the cleanup loop waits a full hour for its first
tick), and the email loop also gets no immediate tick, only a 30-second
delayed first check — so the claim that every loop fires one eager tick
immediately is false on this code. -/
theorem start_eager_tick_cex :
    (startEvents false).contains (PulseEvent.arm "cleanup") = true
    ∧ (startEvents false).contains (PulseEvent.eagerTick "cleanup") = false
    ∧ (startEvents false).contains (PulseEvent.eagerTick "email") = false
    ∧ (startEvents false).contains (PulseEvent.delayedFirstTick "email" 30000) = true := by
  refine ⟨by decide, by decide, by decide, by decide⟩

/-- C8 (amended): start() arms all six loops, but fires immediate eager ticks
only for the jobs and reminders loops; the email, calendar and repo loops get
one 30-second delayed first check and the cleanup loop gets no eager tick at
all; stop() disarms every timer, and calling it repeatedly is safe — a second
stop() finds an empty timer map and is a no-op. -/
theorem start_stop_loops :
    (∀ loop ∈ ["jobs", "reminders", "email", "calendar", "repos", "cleanup"],
      (startEvents false).contains (PulseEvent.arm loop) = true)
    ∧ ((startEvents false).filter
        (fun e => match e with | PulseEvent.eagerTick _ => true | _ => false)
        = [PulseEvent.eagerTick "jobs", PulseEvent.eagerTick "reminders"])
    ∧ (∀ loop ∈ ["email", "calendar", "repos"],
      (startEvents false).contains (PulseEvent.delayedFirstTick loop 30000) = true)
    ∧ ((startEvents false).contains (PulseEvent.eagerTick "cleanup") = false)
    ∧ (∀ s : EngineState, stop (stop s) = stop s)
    ∧ (∀ s : EngineState, (stop s).running = false ∧ (stop s).timers = []) := by
  refine ⟨by decide, by decide, by decide, by decide, fun s => rfl, fun s => ⟨rfl, rfl⟩⟩

/-- Result object of a schedule tool call (success flag and error text). -/
structure ToolResult where
  success : Bool
  error : Option String
deriving DecidableEq

/-- Modelled from the spec: db.createJob inserts one pending job row (spec
section 4.1, create(job)); the scheduled-job layer of core/database.js is not
among the sources (only its callers in tools/scheduleTools.js are). -/
def createJob (d : JobsDB) (j : Job) : JobsDB :=
  ⟨d.jobs ++ [j]⟩

/-- The schedule_email tool (tools/scheduleTools.js lines 23-61).  toValid
models emailRegex.test(args.to); parsedRunAt models new Date(date + T + time)
with none for an invalid (NaN) date; now models Date.now().  A runAt strictly
before now is rejected with an error result and nothing is inserted. -/
def schedule_email (d : JobsDB) (newId userId toAddr subject body : String)
    (cc : Option String) (toValid : Bool) (parsedRunAt : Option Int) (now : Int) :
    ToolResult × JobsDB :=
  if !toValid then
    ({ success := false, error := some "Invalid recipient email address" }, d)
  else
    match parsedRunAt with
    | none =>
      ({ success := false,
         error := some "Invalid date or time format. Use YYYY-MM-DD and HH:MM." }, d)
    | some runAt =>
      if runAt < now then
        ({ success := false,
           error := some "Scheduled time is in the past. Please provide a future date/time." }, d)
      else
        ({ success := true, error := none },
         createJob d
           { id := newId, userId := userId, type := "send_email",
             payload := { title := none, body := some body,
                          toAddr := some toAddr, subject := some subject },
             runAt := runAt, recurring := none, status := JobStatus.pending })

/-- The recurrence validation of schedule_action: args.recurring is checked
against [daily, weekly, hourly] only when it is truthy, so a missing value
and the empty string both pass. -/
def recurringInvalid (r : Option String) : Bool :=
  match r with
  | none => false
  | some s => if s == "" then false else !(["daily", "weekly", "hourly"].contains s)

/-- The schedule_action tool (tools/scheduleTools.js lines 76-105): it
validates only the date format and the recurrence value, never compares runAt
with the clock, and inserts a pending reminder job.  The now argument is the
ambient Date.now() clock, which this tool never reads. -/
def schedule_action (d : JobsDB) (newId userId title : String)
    (parsedRunAt : Option Int) (recurring : Option String) (now : Int) :
    ToolResult × JobsDB :=
  match parsedRunAt with
  | none =>
    ({ success := false, error := some "Invalid date or time format." }, d)
  | some runAt =>
    if recurringInvalid recurring then
      ({ success := false,
         error := some "Invalid recurring value. Use: daily, weekly, hourly" }, d)
    else
      ({ success := true, error := none },
       createJob d
         { id := newId, userId := userId, type := "reminder",
           payload := { title := some title, body := some title,
                        toAddr := none, subject := none },
           runAt := runAt, recurring := recurring, status := JobStatus.pending })

/-- C7 counterexample: schedule_action accepts a runAt that lies a full
11.5 days before the clock (runAt 0 versus now 1000000000 ms) — the call
succeeds and a pending job row is inserted, so the claim that every
job-creation request with a past runAt fails with a validation error and
inserts nothing is false on this code. -/
theorem create_past_runAt_cex :
    ((schedule_action ⟨[]⟩ "job-7" "u1" "water plants" (some 0) none 1000000000).1.success = true)
    ∧ ((schedule_action ⟨[]⟩ "job-7" "u1" "water plants" (some 0) none 1000000000).2.jobs.length = 1)
    ∧ ((0 : Int) < 1000000000) := by
  refine ⟨rfl, rfl, by decide⟩

/-- C7 (amended): only schedule_email validates the scheduled time — a runAt
strictly before now (with no grace tolerance at all) is rejected with an
error result and no row is inserted, while a future runAt inserts one pending
job; schedule_action inserts a pending job whatever the relation of runAt to
the clock. -/
theorem create_validation (d : JobsDB) (newId userId toAddr subject body : String)
    (cc : Option String) (runAt now : Int) :
    (runAt < now →
      (schedule_email d newId userId toAddr subject body cc true (some runAt) now).1.success = false
      ∧ (schedule_email d newId userId toAddr subject body cc true (some runAt) now).2 = d)
    ∧ (now ≤ runAt →
      (schedule_email d newId userId toAddr subject body cc true (some runAt) now).1.success = true
      ∧ (schedule_email d newId userId toAddr subject body cc true (some runAt) now).2.jobs.length
          = d.jobs.length + 1
      ∧ ∃ j ∈ (schedule_email d newId userId toAddr subject body cc true (some runAt) now).2.jobs,
          j.status = JobStatus.pending ∧ j.runAt = runAt ∧ j.id = newId)
    ∧ (∀ title : String, ∀ rec : Option String, recurringInvalid rec = false →
      (schedule_action d newId userId title (some runAt) rec now).1.success = true
      ∧ (schedule_action d newId userId title (some runAt) rec now).2.jobs.length
          = d.jobs.length + 1
      ∧ ∃ j ∈ (schedule_action d newId userId title (some runAt) rec now).2.jobs,
          j.status = JobStatus.pending ∧ j.runAt = runAt) := by
  refine ⟨?_, ?_, ?_⟩
  · intro h
    constructor <;> simp [schedule_email, h]
  · intro h
    have hnot : ¬ (runAt < now) := by omega
    refine ⟨by simp [schedule_email, hnot], by simp [schedule_email, hnot, createJob], ?_⟩
    refine ⟨{ id := newId, userId := userId, type := "send_email",
              payload := { title := none, body := some body,
                           toAddr := some toAddr, subject := some subject },
              runAt := runAt, recurring := none, status := JobStatus.pending },
            ?_, rfl, rfl, rfl⟩
    simp [schedule_email, hnot, createJob]
  · intro title rec hrec
    refine ⟨by simp [schedule_action, hrec], by simp [schedule_action, hrec, createJob], ?_⟩
    refine ⟨{ id := newId, userId := userId, type := "reminder",
              payload := { title := some title, body := some title,
                           toAddr := none, subject := none },
              runAt := runAt, recurring := rec, status := JobStatus.pending },
            ?_, rfl, rfl⟩
    simp [schedule_action, hrec, createJob]

/-- Character-list test for whether pat occurs at the start. -/
def prefixMatch : List Char → List Char → Bool
  | [], _ => true
  | _ :: _, [] => false
  | p :: ps, c :: cs => p == c && prefixMatch ps cs

/-- Character-list substring occurrence. -/
def occursIn (pat : List Char) : List Char → Bool
  | [] => prefixMatch pat []
  | c :: cs => prefixMatch pat (c :: cs) || occursIn pat cs

/-- The JavaScript String.prototype.includes test. -/
def strIncludes (s pat : String) : Bool :=
  occursIn pat.toList s.toList

/-- State of webhook registration: the in-memory _registeredWebhooks set of
the engine (repo names registered for the current tunnel instance) and the
hooks of the external system, as (repoName, config.url) pairs. -/
structure WebhookState where
  registered : List String
  hooks : List (String × String)
deriving DecidableEq

/-- The config.url values of the hooks of one repo, as listed by
gh api repos/NAME/hooks --jq .[].config.url. -/
def repoHookUrls (s : WebhookState) (repoName : String) : List String :=
  (s.hooks.filter (fun h => h.1 == repoName)).map (fun h => h.2)

/-- Hook creation through gh api repos/NAME/hooks -X POST.  The external
system refuses an exact duplicate hook with HTTP 422; the catch branch of
_registerWebhookForRepo (services/pulse.js lines 680-688) treats that
conflict as success and records the repo in the registered set. -/
def createHook (repoName url : String) (s : WebhookState) : WebhookState :=
  if s.hooks.contains (repoName, url) then
    { s with registered := repoName :: s.registered }
  else
    { registered := repoName :: s.registered, hooks := s.hooks ++ [(repoName, url)] }

/-- PulseEngine._registerWebhookForRepo (services/pulse.js lines 613-689).
gh availability and the tunnel URL are passed as parameters; the gh CLI
listing, deletion and creation act on WebhookState.  The string checks run on
the newline-joined jq output of the existing hook urls, as in the source:
skip when already registered this tunnel instance, adopt when an ngrok hook
already points at the desired url, otherwise delete stale ngrok hooks and
create the new hook. -/
def registerWebhookForRepo (gh : Bool) (tunnelUrl : Option String) (repoName : String)
    (s : WebhookState) : WebhookState :=
  if !gh then s
  else
    match tunnelUrl with
    | none => s
    | some publicUrl =>
      let webhookUrl := publicUrl ++ "/webhooks/github"
      if s.registered.contains repoName then s
      else
        let existingRaw := String.intercalate "\n" (repoHookUrls s repoName)
        if strIncludes existingRaw "ngrok" && strIncludes existingRaw "/webhooks/github" then
          if strIncludes existingRaw webhookUrl then
            { s with registered := repoName :: s.registered }
          else
            createHook repoName webhookUrl
              { s with hooks := s.hooks.filter (fun h =>
                  !(h.1 == repoName && strIncludes h.2 "ngrok"
                    && strIncludes h.2 "/webhooks/github")) }
        else
          createHook repoName webhookUrl s

/-- C9: on a resource with no existing hooks, two consecutive ensure calls
with the same repo and the same desired callback URL leave exactly one hook
for that resource — the desired one — and the second call is a no-op because
the repo is already in the in-memory registered set; independently, when the
external system reports the hook as already existing the creation conflict is
treated as success (the registered set grows and no duplicate hook appears). -/
theorem ensure_idempotent (publicUrl repoName : String) (s : WebhookState)
    (hreg : s.registered.contains repoName = false)
    (hfresh : s.hooks.filter (fun h => h.1 == repoName) = []) :
    repoHookUrls (registerWebhookForRepo true (some publicUrl) repoName s) repoName
      = [publicUrl ++ "/webhooks/github"]
    ∧ registerWebhookForRepo true (some publicUrl) repoName
        (registerWebhookForRepo true (some publicUrl) repoName s)
      = registerWebhookForRepo true (some publicUrl) repoName s
    ∧ (∀ t : WebhookState, (repoName, publicUrl ++ "/webhooks/github") ∈ t.hooks →
        (createHook repoName (publicUrl ++ "/webhooks/github") t).hooks = t.hooks
        ∧ (createHook repoName (publicUrl ++ "/webhooks/github") t).registered
            = repoName :: t.registered) := by
  have hurls : repoHookUrls s repoName = [] := by
    simp [repoHookUrls, hfresh]
  have hnotin : s.hooks.contains (repoName, publicUrl ++ "/webhooks/github") = false := by
    by_cases hmem : (repoName, publicUrl ++ "/webhooks/github") ∈ s.hooks
    · exfalso
      have : (repoName, publicUrl ++ "/webhooks/github")
          ∈ s.hooks.filter (fun h => h.1 == repoName) := by
        refine List.mem_filter.mpr ⟨hmem, ?_⟩
        simp
      rw [hfresh] at this
      simp at this
    · simpa using hmem
  have hjoin : String.intercalate "\n" (repoHookUrls s repoName) = "" := by
    rw [hurls]; rfl
  have hngrok : strIncludes (String.intercalate "\n" (repoHookUrls s repoName)) "ngrok" = false := by
    rw [hjoin]; decide
  have hfirst : registerWebhookForRepo true (some publicUrl) repoName s
      = { registered := repoName :: s.registered,
          hooks := s.hooks ++ [(repoName, publicUrl ++ "/webhooks/github")] } := by
    simp only [registerWebhookForRepo, Bool.not_true, hreg, if_false, Bool.false_eq_true,
      hngrok, Bool.false_and, createHook, hnotin]
  refine ⟨?_, ?_, ?_⟩
  · rw [hfirst]
    simp only [repoHookUrls, List.filter_append, hfresh]
    simp
  · rw [hfirst]
    have hreg2 : ((repoName :: s.registered).contains repoName) = true := by
      simp [List.contains_cons]
    simp [registerWebhookForRepo, hreg2, hfirst]
  · intro t hmem
    have hc : t.hooks.contains (repoName, publicUrl ++ "/webhooks/github") = true := by
      simpa using hmem
    constructor <;> simp [createHook, hc, hmem]

/-- A concrete job row left in running, as after a crash. -/
def demoStuckJob : Job :=
  { id := "job-3", userId := "u1", type := "reminder",
    payload := { title := some "standup", body := some "standup", toAddr := none, subject := none },
    runAt := 1700000000000, recurring := none, status := JobStatus.running }

/-- A concrete _notify request. -/
def demoReq : NotifyReq :=
  { userId := "u1", source := "email", sourceId := "m-1",
    priority := some "info", title := "new mail", body := "hello" }

theorem markRunning_exclusive_witness :
    (markRunning ⟨[demoRecurringJob]⟩ "job-1").1 = true
    ∧ (markRunning (markRunning ⟨[demoRecurringJob]⟩ "job-1").2 "job-1").1 = false := by
  have h := markRunning_exclusive ⟨[demoRecurringJob]⟩ demoRecurringJob
    (by decide) (by decide) rfl
  exact ⟨h.1, h.2.1⟩

theorem notify_dedup_once_witness :
    (notify ⟨[], []⟩ demoReq).notificationQueue = [demoReq.toNotification]
    ∧ notify (notify ⟨[], []⟩ demoReq) demoReq = notify ⟨[], []⟩ demoReq := by
  have h := notify_dedup_once ⟨[], []⟩ demoReq rfl (by simp)
  refine ⟨by simpa using h.1, ?_⟩
  exact h.2.2.2.1 (notify ⟨[], []⟩ demoReq) h.2.1 demoReq rfl

theorem recurring_advances_from_scheduled_witness :
    (executeJob (Except.ok ()) demoRecurringJob).1.status = JobStatus.pending
    ∧ (executeJob (Except.ok ()) demoRecurringJob).1.runAt
        = demoRecurringJob.runAt + 3600000 := by
  have h := (recurring_advances_from_scheduled demoRecurringJob).1 rfl
  exact ⟨h.1, h.2.1⟩

theorem recurring_failure_terminates_witness :
    (executeJob (Except.error "boom") demoRecurringJob).1.status = JobStatus.failed
    ∧ (executeJob (Except.error "boom") demoRecurringJob).1.runAt
        = demoRecurringJob.runAt := by
  have h := recurring_failure_terminates demoRecurringJob "boom" "hourly" rfl rfl
  exact ⟨h.1, h.2.1⟩

theorem resetStuck_frame_and_once_witness :
    { demoStuckJob with status := JobStatus.pending }
      ∈ (recoverStuckJobs ⟨[demoStuckJob]⟩).jobs
    ∧ (startEvents false).count PulseEvent.recoverStuck = 1 := by
  have h := resetStuck_frame_and_once ⟨[demoStuckJob]⟩ demoStuckJob (by decide)
  exact ⟨h.2.1 rfl, h.2.2.2.1⟩

theorem dispatch_failure_policy_witness :
    (executeJob (Except.ok ()) demoUnknownJob).1.status = JobStatus.done
    ∧ (executeJob (Except.error "boom2") demoRecurringJob).1.status = JobStatus.failed := by
  have h := dispatch_failure_policy demoUnknownJob "boom2" (by decide) (by decide) rfl
  exact ⟨h.1, (h.2.2 demoRecurringJob rfl).1⟩

theorem create_validation_witness :
    (schedule_email ⟨[]⟩ "j-10" "u1" "a@b.c" "subj" "text" none true (some 100) 200).1.success
      = false
    ∧ (schedule_email ⟨[]⟩ "j-10" "u1" "a@b.c" "subj" "text" none true (some 300) 200).1.success
      = true
    ∧ (schedule_action ⟨[]⟩ "j-11" "u1" "walk" (some 100) none 200).1.success = true := by
  have h1 := (create_validation ⟨[]⟩ "j-10" "u1" "a@b.c" "subj" "text" none 100 200).1 (by decide)
  have h2 := (create_validation ⟨[]⟩ "j-10" "u1" "a@b.c" "subj" "text" none 300 200).2.1 (by decide)
  have h3 := (create_validation ⟨[]⟩ "j-11" "u1" "a@b.c" "subj" "text" none 100 200).2.2 "walk" none rfl
  exact ⟨h1.1, h2.1, h3.1⟩

theorem start_stop_loops_witness :
    (startEvents false).contains (PulseEvent.arm "cleanup") = true
    ∧ stop (stop ⟨true, ["jobs", "email"]⟩) = stop ⟨true, ["jobs", "email"]⟩ := by
  have h := start_stop_loops
  exact ⟨h.1 "cleanup" (by decide), h.2.2.2.2.1 ⟨true, ["jobs", "email"]⟩⟩

theorem ensure_idempotent_witness :
    repoHookUrls
        (registerWebhookForRepo true (some "https://t1.ngrok.app") "org/repo" ⟨[], []⟩)
        "org/repo"
      = ["https://t1.ngrok.app" ++ "/webhooks/github"]
    ∧ registerWebhookForRepo true (some "https://t1.ngrok.app") "org/repo"
        (registerWebhookForRepo true (some "https://t1.ngrok.app") "org/repo" ⟨[], []⟩)
      = registerWebhookForRepo true (some "https://t1.ngrok.app") "org/repo" ⟨[], []⟩ := by
  have h := ensure_idempotent "https://t1.ngrok.app" "org/repo" ⟨[], []⟩ rfl rfl
  exact ⟨h.1, h.2.1⟩

end Prisma
